import Mathlib

/-!
Verification of the click-tracking redirector service.

The service exists in two variants that share the same helper logic:
a PostgreSQL-backed variant (`click_tracking_db.py`, namespace `Db`) and a
flat-file variant (`click_tracking_railway.py`, namespace `Rw`).  The shallow
embedding below translates the helper functions (`is_bot_request`,
`is_rate_limited`, `clean_ip_tracker`) and the request handlers
(`track_click`, `confirm_post`, `get_analytics`) into pure Lean functions.

Modelling conventions:
* Python strings are Lean `String`s; `.lower()` and slicing are re-implemented
  over the character list so that they compute by kernel reduction.
* `time.time()` values (floats used only in subtractions and comparisons by
  the rate limiter) are modelled as `Int`; `datetime.now()` instants (used
  only as opaque, ordered timestamps) are modelled as `Nat`.
* The in-memory `ip_tracker` dict is a function `String → Option (Int × Nat)`
  from keys to `(last_time, count)` pairs.
* The posts table / posts dict is an association list `List (String × Post)`
  keyed by tracking id; dict insertion appends at the end.
* Database failure on the click path is represented by a boolean oracle
  `db_fail`: when it is set, the storage steps raise and the surrounding
  `except` handler takes over, exactly as in the source.
-/

namespace ClickTracking

/-! ### String helpers

`strLower`, `strTake`, `strContains` re-implement Python's `str.lower()`
(ASCII case folding, which is all the source's token lists need),
slicing `s[:n]`, and the `needle in hay` substring test. -/

def strLower (s : String) : String := ⟨s.data.map Char.toLower⟩

def strTake (n : Nat) (s : String) : String := ⟨s.data.take n⟩

def charsContain (needle : List Char) : List Char → Bool
  | [] => needle.isEmpty
  | c :: rest => needle.isPrefixOf (c :: rest) || charsContain needle rest

/-- Python's `needle in hay` substring test. -/
def strContains (hay needle : String) : Bool := charsContain needle.data hay.data

/-! ### Bot classifier

Identical in both source files (`is_bot_request` plus the module level token
lists).  The `bot_patterns` entries are regexes in the source, but every one
of them is a literal string, so `re.search` degenerates to a substring test. -/

def BOT_USER_AGENTS : List String :=
  ["facebookexternalhit", "Twitterbot", "LinkedInBot", "WhatsApp",
   "TelegramBot", "Slackbot", "Discordbot", "Googlebot", "Bingbot",
   "YandexBot", "DuckDuckBot", "Applebot", "Slurp", "ia_archiver",
   "Mediapartners-Google", "Bytespider", "Pinterest", "Iframely",
   "MetaInspector", "bot", "crawler", "spider", "scraper", "checker",
   "monitor", "headless", "selenium", "phantomjs", "puppeteer"]

def browser_indicators : List String :=
  ["mozilla", "chrome", "safari", "firefox", "edge", "opera", "webkit",
   "gecko", "msie", "trident"]

def mobile_indicators : List String :=
  ["mobile", "android", "iphone", "ipad", "ipod"]

def bot_patterns : List String :=
  ["python", "requests", "urllib", "curl", "wget", "http-client",
   "go-http", "java", "okhttp"]

def has_deny_token (user_agent : String) : Bool :=
  BOT_USER_AGENTS.any (fun t => strContains (strLower user_agent) (strLower t))

def has_browser_token (user_agent : String) : Bool :=
  browser_indicators.any (fun t => strContains (strLower user_agent) t)

def has_mobile_token (user_agent : String) : Bool :=
  mobile_indicators.any (fun t => strContains (strLower user_agent) t)

def has_http_client_pattern (user_agent : String) : Bool :=
  bot_patterns.any (fun t => strContains (strLower user_agent) t)

/-- `is_bot_request` from the source (the `ip` parameter is unused there). -/
def is_bot_request (user_agent : String) : Bool :=
  if user_agent = "" then true
  else if has_deny_token user_agent then true
  else if !has_browser_token user_agent && !has_mobile_token user_agent then
    has_http_client_pattern user_agent
  else false

/-- Modelled from the spec: the ordered, first-match-wins decision procedure
the spec describes for the bot classifier (empty → bot; deny-list substring
→ bot; no desktop-browser token, no mobile-platform token and an HTTP-client
pattern → bot; otherwise human).  Used only to compare against
`is_bot_request`. -/
def spec_bot_classify (user_agent : String) : Bool :=
  if user_agent = "" then true
  else if has_deny_token user_agent then true
  else if !has_browser_token user_agent && !has_mobile_token user_agent
          && has_http_client_pattern user_agent then true
  else false

/-! ### Rate limiter (`ip_tracker`, `is_rate_limited`, `clean_ip_tracker`)

Identical in both source files.  The tracker maps `f"{ip}_{tracking_id}"`
keys to `(last_time, count)`. -/

def Tracker : Type := String → Option (Int × Nat)

def rl_key (ip tracking_id : String) : String := ip ++ "_" ++ tracking_id

def trackerSet (tr : Tracker) (k : String) (v : Int × Nat) : Tracker :=
  fun x => if x = k then some v else tr x

def is_rate_limited (ip tracking_id : String) (now : Int) (tr : Tracker) :
    Bool × Tracker :=
  let key := rl_key ip tracking_id
  match tr key with
  | some (last_time, count) =>
    if now - last_time > 3600 then (false, trackerSet tr key (now, 1))
    else if now - last_time < 60 ∧ count ≥ 5 then (true, tr)
    else (false, trackerSet tr key (now, count + 1))
  | none => (false, trackerSet tr key (now, 1))

def clean_ip_tracker (now : Int) (tr : Tracker) : Tracker :=
  fun k =>
    match tr k with
    | some (last_time, count) =>
      if now - last_time > 3600 then none else some (last_time, count)
    | none => none

/-- Iterated rate-limiter checks for one key: fold the state through a list
of call times, keeping only the updated tracker. -/
def rl_calls (ip tracking_id : String) (ts : List Int) (tr : Tracker) : Tracker :=
  ts.foldl (fun acc t => (is_rate_limited ip tracking_id t acc).2) tr

/-! ### Shared entity model -/

/-- A click-history record (one row of `click_history` / one entry of
`click_data["click_history"]`). -/
structure ClickRecord where
  tracking_id : String
  timestamp : Nat
  platform : String
  badge_type : String
  ip : String
  user_agent : String
  is_human : Bool
deriving DecidableEq

/-- The only kind of response the click path produces. -/
inductive Response where
  | redirect (url : String) (code : Nat)
deriving DecidableEq

def FINAL_DESTINATION : String := "https://nonai.life/"

/-- Result of an API endpoint (confirm): success or an HTTP error. -/
inductive ApiResult where
  | ok
  | err (code : Nat) (detail : String)
deriving DecidableEq

/-- Update every binding of `tid` in an association list (the dict/SQL
`UPDATE ... WHERE tracking_id = tid`). -/
def postsUpdate {α : Type} (tid : String) (f : α → α) (l : List (String × α)) :
    List (String × α) :=
  l.map (fun kv => if kv.1 = tid then (kv.1, f kv.2) else kv)

/-! ### `Db`: the PostgreSQL variant (`click_tracking_db.py`) -/

namespace Db

/-- One row of the `posts` table. -/
structure Post where
  username : String
  badge_type : String
  platform : String
  post_url : Option String
  clicks : Nat
  confirmed : Bool
  first_click : Option Nat
  last_click : Option Nat
  created_at : Nat
  confirmed_at : Option Nat
deriving DecidableEq

/-- The persistent tables plus the in-memory `ip_tracker`. -/
structure State where
  posts : List (String × Post)
  history : List ClickRecord
  bot_requests_blocked : Nat
  tracker : Tracker

def emptyState : State :=
  { posts := [], history := [], bot_requests_blocked := 0, tracker := fun _ => none }

/-- The accepted-click row update of `track_click`:
`clicks = clicks + 1, last_click = now, first_click = COALESCE(first_click, now)`. -/
def applyClick (now : Nat) (p : Post) : Post :=
  { p with clicks := p.clicks + 1,
           last_click := some now,
           first_click := some (p.first_click.getD now) }

/-- Sequence of accepted-click updates. -/
def applyClicks (ts : List Nat) (p : Post) : Post :=
  ts.foldl (fun q t => applyClick t q) p

/-- `GET /track/{tracking_id}` of the PostgreSQL variant.  `p` and `b` are the
query parameters, `rl_now` the `time.time()` instant, `now` the
`datetime.now()` instant, and `db_fail` the storage-failure oracle: when set,
the database work raises and the `except` handler returns the redirect with
the tables untouched (the transaction rolls back). -/
def track_click (tid ua ip p b : String) (rl_now : Int) (now : Nat)
    (db_fail : Bool) (st : State) : Response × State :=
  let st1 : State := { st with tracker := clean_ip_tracker rl_now st.tracker }
  if is_bot_request ua then
    if db_fail then (.redirect FINAL_DESTINATION 302, st1)
    else
      (.redirect FINAL_DESTINATION 302,
       { st1 with bot_requests_blocked := st1.bot_requests_blocked + 1 })
  else
    let rl := is_rate_limited ip tid rl_now st1.tracker
    let st2 : State := { st1 with tracker := rl.2 }
    if rl.1 then (.redirect FINAL_DESTINATION 302, st2)
    else if db_fail then (.redirect FINAL_DESTINATION 302, st2)
    else
      match List.lookup tid st2.posts with
      | none => (.redirect FINAL_DESTINATION 302, st2)
      | some post =>
        if post.confirmed then
          let record : ClickRecord :=
            { tracking_id := tid, timestamp := now, platform := p, badge_type := b,
              ip := if ip = "" then "unknown" else strTake 15 ip,
              user_agent := strTake 100 ua, is_human := true }
          (.redirect FINAL_DESTINATION 302,
           { st2 with posts := postsUpdate tid (applyClick now) st2.posts,
                      history := st2.history ++ [record] })
        else (.redirect FINAL_DESTINATION 302, st2)

/-- The row update performed by `POST /api/confirm-post` on an existing post:
the unconditional `UPDATE` plus the conditional username `UPDATE`. -/
def confirmUpdate (post_url platform : String) (username : Option String)
    (now : Nat) (p : Post) : Post :=
  let p1 : Post := { p with post_url := some post_url, confirmed := true,
                            confirmed_at := some now, platform := platform }
  match username with
  | some u => if u ≠ "" ∧ u ≠ "unknown" then { p1 with username := u } else p1
  | none => p1

/-- `POST /api/confirm-post`.  The `UPDATE ... RETURNING` matches no row
exactly when the tracking id is absent, which raises the 404. -/
def confirm_post (tid post_url platform : String) (username : Option String)
    (now : Nat) (st : State) : ApiResult × State :=
  match List.lookup tid st.posts with
  | none => (.err 404 "Tracking ID not found", st)
  | some _ =>
    (.ok, { st with posts := postsUpdate tid (confirmUpdate post_url platform username now) st.posts })

def confirmedPosts (st : State) : List (String × Post) :=
  st.posts.filter (fun kv => kv.2.confirmed)

def sumClicks (l : List (String × Post)) : Nat :=
  (l.map (fun kv => kv.2.clicks)).sum

/-- One formatted entry of the analytics `recent_clicks` list (the columns
selected by the join of `click_history` with `posts`). -/
structure RecentClick where
  timestamp : Nat
  tracking_id : String
  post_url : Option String
  platform : String
  badge_type : String
  username : String
deriving DecidableEq

/-- One row of the join `click_history JOIN posts` restricted to human
records: `none` when the record is non-human or (impossible under the foreign
key) its post is missing. -/
def joinRecord (posts : List (String × Post)) (r : ClickRecord) : Option RecentClick :=
  if r.is_human then
    match List.lookup r.tracking_id posts with
    | some p =>
      some { timestamp := r.timestamp, tracking_id := r.tracking_id,
             post_url := p.post_url, platform := r.platform,
             badge_type := r.badge_type, username := p.username }
    | none => none
  else none

/-- The join `click_history JOIN posts ... WHERE ch.is_human = TRUE`. -/
def humanJoined (st : State) : List RecentClick :=
  st.history.filterMap (joinRecord st.posts)

/-- `ORDER BY ch.timestamp DESC LIMIT 20` over the human join. -/
def recent_clicks (st : State) : List RecentClick :=
  (List.insertionSort (fun a b : RecentClick => b.timestamp ≤ a.timestamp)
    (humanJoined st)).take 20

/-- The analytics payload fields the claims are about. -/
structure Analytics where
  total_clicks : Nat
  total_posts : Nat
  pending_posts : Nat
  clicks_by_platform : String → Nat
  clicks_by_badge_type : String → Nat
  top_posts : List (String × Post)
  recent_clicks : List RecentClick
  avg_clicks_per_post : ℚ

/-- `GET /api/analytics` of the PostgreSQL variant: every aggregate query
carries `WHERE confirmed = TRUE` except the pending count; the average is
`(total_clicks or 0) / max(total_posts or 1, 1)`. -/
def get_analytics (st : State) : Analytics :=
  let conf := confirmedPosts st
  let tc := sumClicks conf
  let tp := conf.length
  { total_clicks := tc,
    total_posts := tp,
    pending_posts := (st.posts.filter (fun kv => !kv.2.confirmed)).length,
    clicks_by_platform := fun pl => sumClicks (conf.filter (fun kv => kv.2.platform = pl)),
    clicks_by_badge_type := fun bt => sumClicks (conf.filter (fun kv => kv.2.badge_type = bt)),
    top_posts := (List.insertionSort (fun a b : String × Post => b.2.clicks ≤ a.2.clicks) conf).take 50,
    recent_clicks := recent_clicks st,
    avg_clicks_per_post := (tc : ℚ) / ((max (if tp = 0 then 1 else tp) 1 : Nat) : ℚ) }

end Db

/-! ### `Rw`: the flat-file variant (`click_tracking_railway.py`) -/

namespace Rw

/-- One entry of `click_data["posts"]`.  Note: this variant stores no
`confirmed` flag and no `confirmed_at`, and `post_url` is a plain string
initialised to `""`. -/
structure Post where
  clicks : Nat
  platform : String
  badge_type : String
  username : String
  post_url : String
  first_click : Option Nat
  last_click : Option Nat
  created_at : Nat
deriving DecidableEq

/-- `click_data` plus the in-memory `ip_tracker`. -/
structure State where
  total_clicks : Nat
  posts : List (String × Post)
  history : List ClickRecord
  bot_requests_blocked : Nat
  tracker : Tracker

def emptyState : State :=
  { total_clicks := 0, posts := [], history := [], bot_requests_blocked := 0,
    tracker := fun _ => none }

/-- The post entry `track_click` creates for an unknown tracking id. -/
def newPost (p b : String) (now : Nat) : Post :=
  { clicks := 0, platform := p, badge_type := b, username := "unknown",
    post_url := "", first_click := none, last_click := none, created_at := now }

/-- The accepted-click update: `clicks += 1`, set `first_click` only when it
is still unset (`if not ... ["first_click"]`), always set `last_click`. -/
def applyClick (now : Nat) (p : Post) : Post :=
  { p with clicks := p.clicks + 1,
           first_click := if p.first_click = none then some now else p.first_click,
           last_click := some now }

/-- Sequence of accepted-click updates. -/
def applyClicks (ts : List Nat) (p : Post) : Post :=
  ts.foldl (fun q t => applyClick t q) p

/-- Python `l[-n:]`. -/
def rtake {α : Type} (n : Nat) (l : List α) : List α := l.drop (l.length - n)

/-- `GET /track/<tracking_id>` of the flat-file variant.  There is no
confirmation check: a missing post is created on the fly and the click is
counted.  `save_fail` is the storage oracle for `save_data()`: a failing save
raises after the in-memory mutations, so the `except` handler returns the
same redirect and the in-memory state keeps the mutations either way. -/
def track_click (tid ua ip p b : String) (rl_now : Int) (now : Nat)
    (save_fail : Bool) (st : State) : Response × State :=
  let st1 : State := { st with tracker := clean_ip_tracker rl_now st.tracker }
  if is_bot_request ua then
    (.redirect FINAL_DESTINATION 302,
     { st1 with bot_requests_blocked := st1.bot_requests_blocked + 1 })
  else
    let rl := is_rate_limited ip tid rl_now st1.tracker
    let st2 : State := { st1 with tracker := rl.2 }
    if rl.1 then (.redirect FINAL_DESTINATION 302, st2)
    else
      let posts0 :=
        if List.lookup tid st2.posts = none then st2.posts ++ [(tid, newPost p b now)]
        else st2.posts
      let posts1 := postsUpdate tid (applyClick now) posts0
      let record : ClickRecord :=
        { tracking_id := tid, timestamp := now, platform := p, badge_type := b,
          ip := strTake 15 ip, user_agent := strTake 30 ua, is_human := true }
      let hist1 := st2.history ++ [record]
      let hist2 := if hist1.length > 50 then rtake 50 hist1 else hist1
      let _ := save_fail
      (.redirect FINAL_DESTINATION 302,
       { st2 with posts := posts1, total_clicks := st2.total_clicks + 1,
                  history := hist2 })

def sumClicks (l : List (String × Post)) : Nat :=
  (l.map (fun kv => kv.2.clicks)).sum

/-- One formatted entry of the analytics `recent_clicks` list. -/
structure RecentClick where
  timestamp : Nat
  tracking_id : String
  platform : String
  badge_type : String
deriving DecidableEq

/-- `click_data["click_history"][-20:]` filtered to human records, in stored
(chronological) order. -/
def recent_clicks (history : List ClickRecord) : List RecentClick :=
  ((rtake 20 history).filter (fun r => r.is_human)).map (fun r =>
    { timestamp := r.timestamp, tracking_id := r.tracking_id,
      platform := r.platform, badge_type := r.badge_type })

/-- Dict accumulation `stats[k] = stats.get(k, 0) + clicks`, as a total map
with default 0. -/
def bumpStat (m : String → Nat) (k : String) (v : Nat) : String → Nat :=
  fun x => if x = k then m k + v else m x

def foldStats (f : String × Post → String) (l : List (String × Post)) :
    String → Nat :=
  l.foldl (fun m kv => bumpStat m (f kv) kv.2.clicks) (fun _ => 0)

/-- The analytics payload fields the claims are about. -/
structure Analytics where
  total_clicks : Nat
  total_posts : Nat
  clicks_by_platform : String → Nat
  clicks_by_badge_type : String → Nat
  top_posts : List (String × Post)
  recent_clicks : List RecentClick
  avg_clicks_per_post : ℚ

/-- `GET /api/analytics` of the flat-file variant: it iterates **all** stored
posts (this variant has no confirmation state), sorts them by clicks
descending, and sums/aggregates over that list. -/
def get_analytics (st : State) : Analytics :=
  let posts_list := List.insertionSort
    (fun a b : String × Post => b.2.clicks ≤ a.2.clicks) st.posts
  let tc := sumClicks posts_list
  { total_clicks := tc,
    total_posts := posts_list.length,
    clicks_by_platform := foldStats (fun kv => kv.2.platform) posts_list,
    clicks_by_badge_type := foldStats (fun kv => kv.2.badge_type) posts_list,
    top_posts := posts_list.take 20,
    recent_clicks := recent_clicks st.history,
    avg_clicks_per_post := (tc : ℚ) / ((max posts_list.length 1 : Nat) : ℚ) }

end Rw

/-! ## Helper lemmas -/

theorem lookup_postsUpdate {α : Type} (tid : String) (f : α → α)
    (l : List (String × α)) :
    List.lookup tid (postsUpdate tid f l) = (List.lookup tid l).map f := by
  induction l with
  | nil => rfl
  | cons kv rest ih =>
    rcases kv with ⟨k, v⟩
    by_cases h : k = tid
    · subst h
      simp [postsUpdate, List.lookup_cons]
    · have h' : (tid == k) = false := by
        simp [beq_eq_false_iff_ne]
        exact fun hh => h hh.symm
      simp only [postsUpdate, List.map_cons, if_neg h, List.lookup_cons, h']
      simpa [postsUpdate] using ih

theorem lookup_append_right {α : Type} (k : String) (l₁ l₂ : List (String × α))
    (h : List.lookup k l₁ = none) :
    List.lookup k (l₁ ++ l₂) = List.lookup k l₂ := by
  rw [List.lookup_append, h, Option.none_or]

/-! ## Claim C2: the bot classifier -/

/-- Claim C2: the bot classifier is a pure function of the user-agent string
following the ordered, first-match-wins procedure: empty → bot; deny-list
substring (case-insensitive) → bot; otherwise, no desktop-browser token, no
mobile-platform token and an HTTP-client/library pattern → bot; otherwise
human.  In particular a user agent with a desktop-browser token and no
deny-list token is classified human. -/
theorem c2_bot_classifier_follows_spec :
    (∀ ua, is_bot_request ua = spec_bot_classify ua) ∧
    (is_bot_request "" = true) ∧
    (∀ ua, has_deny_token ua = true → is_bot_request ua = true) ∧
    (∀ ua, has_browser_token ua = true → has_deny_token ua = false →
      is_bot_request ua = false) := by
  refine ⟨?_, rfl, ?_, ?_⟩
  · intro ua
    by_cases h0 : ua = ""
    · simp [is_bot_request, spec_bot_classify, h0]
    · cases hd : has_deny_token ua <;>
      cases hb : has_browser_token ua <;>
      cases hm : has_mobile_token ua <;>
      cases hp : has_http_client_pattern ua <;>
      simp [is_bot_request, spec_bot_classify, h0, hd, hb, hm, hp]
  · intro ua hd
    by_cases h0 : ua = "" <;> simp [is_bot_request, h0, hd]
  · intro ua hb hd
    have h0 : ua ≠ "" := by
      intro h
      rw [h] at hb
      exact absurd hb (by decide)
    simp [is_bot_request, h0, hd, hb]

/-- Witness for C2 at a concrete desktop user agent (human) and a concrete
crawler user agent (bot). -/
theorem c2_bot_classifier_follows_spec_witness :
    (has_browser_token "Mozilla/5.0 (Windows NT 10.0; Win64; x64) Chrome/120.0" = true ∧
     has_deny_token "Mozilla/5.0 (Windows NT 10.0; Win64; x64) Chrome/120.0" = false ∧
     is_bot_request "Mozilla/5.0 (Windows NT 10.0; Win64; x64) Chrome/120.0" = false) ∧
    (has_deny_token "Googlebot/2.1" = true ∧ is_bot_request "Googlebot/2.1" = true) :=
  ⟨⟨by decide, by decide,
    c2_bot_classifier_follows_spec.2.2.2 _ (by decide) (by decide)⟩,
   ⟨by decide, c2_bot_classifier_follows_spec.2.2.1 _ (by decide)⟩⟩

/-! ## Claim C3: the rate limiter -/

/-- Claim C3: per (ip, tracking_id) key the limiter creates a fresh entry with
count 1 when none exists; resets to count 1 when the entry is older than
3600 s; returns limited without touching the entry when the age is under 60 s
and the count is at least 5; and otherwise increments.  Consequently a 6th
call within the same 60 s window after 5 calls is limited, and any call after
a gap of more than 3600 s is not limited and resets the count to 1. -/
theorem c3_rate_limiter_behavior :
    (∀ ip tid now (tr : Tracker), tr (rl_key ip tid) = none →
      is_rate_limited ip tid now tr = (false, trackerSet tr (rl_key ip tid) (now, 1))) ∧
    (∀ ip tid now (tr : Tracker) last cnt, tr (rl_key ip tid) = some (last, cnt) →
      now - last > 3600 →
      is_rate_limited ip tid now tr = (false, trackerSet tr (rl_key ip tid) (now, 1))) ∧
    (∀ ip tid now (tr : Tracker) last cnt, tr (rl_key ip tid) = some (last, cnt) →
      ¬ now - last > 3600 → now - last < 60 → cnt ≥ 5 →
      is_rate_limited ip tid now tr = (true, tr)) ∧
    (∀ ip tid now (tr : Tracker) last cnt, tr (rl_key ip tid) = some (last, cnt) →
      ¬ now - last > 3600 → ¬ (now - last < 60 ∧ cnt ≥ 5) →
      is_rate_limited ip tid now tr = (false, trackerSet tr (rl_key ip tid) (now, cnt + 1))) ∧
    (∀ ip tid (tr : Tracker) t₁ t₂ t₃ t₄ t₅ t₆, tr (rl_key ip tid) = none →
      t₁ ≤ t₂ → t₂ ≤ t₃ → t₃ ≤ t₄ → t₄ ≤ t₅ → t₅ ≤ t₆ → t₆ - t₁ < 60 →
      rl_calls ip tid [t₁, t₂, t₃, t₄, t₅] tr (rl_key ip tid) = some (t₅, 5) ∧
      (is_rate_limited ip tid t₆ (rl_calls ip tid [t₁, t₂, t₃, t₄, t₅] tr)).1 = true) ∧
    (∀ ip tid now (tr : Tracker) last cnt, tr (rl_key ip tid) = some (last, cnt) →
      now - last > 3600 →
      (is_rate_limited ip tid now tr).1 = false ∧
      (is_rate_limited ip tid now tr).2 (rl_key ip tid) = some (now, 1)) := by
  have hnone : ∀ ip tid now (tr : Tracker), tr (rl_key ip tid) = none →
      is_rate_limited ip tid now tr = (false, trackerSet tr (rl_key ip tid) (now, 1)) := by
    intro ip tid now tr h
    simp [is_rate_limited, h]
  have hreset : ∀ ip tid now (tr : Tracker) last cnt,
      tr (rl_key ip tid) = some (last, cnt) → now - last > 3600 →
      is_rate_limited ip tid now tr = (false, trackerSet tr (rl_key ip tid) (now, 1)) := by
    intro ip tid now tr last cnt h hgap
    simp [is_rate_limited, h, hgap]
  have hlim : ∀ ip tid now (tr : Tracker) last cnt,
      tr (rl_key ip tid) = some (last, cnt) → ¬ now - last > 3600 →
      now - last < 60 → cnt ≥ 5 → is_rate_limited ip tid now tr = (true, tr) := by
    intro ip tid now tr last cnt h hgap hlt hcnt
    have hand : now - last < 60 ∧ cnt ≥ 5 := ⟨hlt, hcnt⟩
    simp only [is_rate_limited, h, if_neg hgap, if_pos hand]
  have hinc : ∀ ip tid now (tr : Tracker) last cnt,
      tr (rl_key ip tid) = some (last, cnt) → ¬ now - last > 3600 →
      ¬ (now - last < 60 ∧ cnt ≥ 5) →
      is_rate_limited ip tid now tr = (false, trackerSet tr (rl_key ip tid) (now, cnt + 1)) := by
    intro ip tid now tr last cnt h hgap hno
    simp only [is_rate_limited, h, if_neg hgap, if_neg hno]
  refine ⟨hnone, hreset, hlim, hinc, ?_, ?_⟩
  · intro ip tid tr t₁ t₂ t₃ t₄ t₅ t₆ h0 h12 h23 h34 h45 h56 hwin
    have lset : ∀ (tr' : Tracker) v, trackerSet tr' (rl_key ip tid) v (rl_key ip tid) = some v := by
      intro tr' v
      simp [trackerSet]
    have e1 := hnone ip tid t₁ tr h0
    have e2 := hinc ip tid t₂ (trackerSet tr (rl_key ip tid) (t₁, 1)) t₁ 1
      (lset tr (t₁, 1)) (by omega) (fun h => absurd h.2 (by decide))
    have e3 := hinc ip tid t₃
      (trackerSet (trackerSet tr (rl_key ip tid) (t₁, 1)) (rl_key ip tid) (t₂, 2)) t₂ 2
      (lset _ (t₂, 2)) (by omega) (fun h => absurd h.2 (by decide))
    have e4 := hinc ip tid t₄
      (trackerSet (trackerSet (trackerSet tr (rl_key ip tid) (t₁, 1)) (rl_key ip tid) (t₂, 2))
        (rl_key ip tid) (t₃, 3)) t₃ 3
      (lset _ (t₃, 3)) (by omega) (fun h => absurd h.2 (by decide))
    have e5 := hinc ip tid t₅
      (trackerSet (trackerSet (trackerSet (trackerSet tr (rl_key ip tid) (t₁, 1))
        (rl_key ip tid) (t₂, 2)) (rl_key ip tid) (t₃, 3)) (rl_key ip tid) (t₄, 4)) t₄ 4
      (lset _ (t₄, 4)) (by omega) (fun h => absurd h.2 (by decide))
    have ecalls : rl_calls ip tid [t₁, t₂, t₃, t₄, t₅] tr =
        trackerSet (trackerSet (trackerSet (trackerSet (trackerSet tr
          (rl_key ip tid) (t₁, 1)) (rl_key ip tid) (t₂, 2)) (rl_key ip tid) (t₃, 3))
          (rl_key ip tid) (t₄, 4)) (rl_key ip tid) (t₅, 5) := by
      simp [rl_calls, List.foldl, e1, e2, e3, e4, e5]
    refine ⟨by rw [ecalls]; exact lset _ (t₅, 5), ?_⟩
    have e6 := hlim ip tid t₆ (rl_calls ip tid [t₁, t₂, t₃, t₄, t₅] tr) t₅ 5
      (by rw [ecalls]; exact lset _ (t₅, 5)) (by omega) (by omega) (le_refl 5)
    rw [e6]
  · intro ip tid now tr last cnt h hgap
    refine ⟨by rw [hreset ip tid now tr last cnt h hgap], ?_⟩
    rw [hreset ip tid now tr last cnt h hgap]
    simp [trackerSet]

/-- Witness for C3: six calls at seconds 0..5 for one key, starting from an
empty tracker; the sixth is limited, and a later call after a 4000-second gap
is admitted again with the count reset to 1. -/
theorem c3_rate_limiter_behavior_witness :
    ((is_rate_limited "1.2.3.4" "abc" 5 (rl_calls "1.2.3.4" "abc" [0, 1, 2, 3, 4]
        (fun _ => none))).1 = true) ∧
    ((is_rate_limited "1.2.3.4" "abc" 4005 (rl_calls "1.2.3.4" "abc" [0, 1, 2, 3, 4]
        (fun _ => none))).1 = false) :=
  have hscen := c3_rate_limiter_behavior.2.2.2.2.1 "1.2.3.4" "abc" (fun _ => none)
    0 1 2 3 4 5 rfl (by decide) (by decide) (by decide) (by decide) (by decide) (by decide)
  ⟨hscen.2,
   (c3_rate_limiter_behavior.2.2.2.2.2 "1.2.3.4" "abc" 4005 _ 4 5 hscen.1 (by decide)).1⟩

/-! ## Claim C4: the click path always answers with the fixed redirect -/

/-- Claim C4: in both variants, every `GET /track/{tracking_id}` request is
answered with a 302 redirect to the single fixed destination, whatever the
outcome (accepted, bot, rate-limited, missing or unconfirmed post, storage
failure); no error status ever reaches the caller on the click path. -/
theorem c4_track_click_always_redirects :
    (∀ tid ua ip p b rl_now now db_fail st,
      (Db.track_click tid ua ip p b rl_now now db_fail st).1 =
        Response.redirect FINAL_DESTINATION 302) ∧
    (∀ tid ua ip p b rl_now now save_fail st,
      (Rw.track_click tid ua ip p b rl_now now save_fail st).1 =
        Response.redirect FINAL_DESTINATION 302) := by
  constructor
  · intro tid ua ip p b rl_now now db_fail st
    unfold Db.track_click
    dsimp only
    repeat' split
    all_goals rfl
  · intro tid ua ip p b rl_now now save_fail st
    unfold Rw.track_click
    dsimp only
    repeat' split
    all_goals rfl

/-! ## Claim C5: counters and click timestamps -/

/-- Claim C5: across any sequence of accepted clicks, in both variants, the
click counter grows by exactly the number of accepted clicks (so it only
increases); `first_click` is set by the first accepted click and never changes
afterwards; `last_click` always carries the timestamp of the most recent
accepted click; after the first accepted click `first_click = last_click`,
and a second click moves `last_click` but not `first_click`. -/
theorem c5_click_counter_timestamps :
    (∀ (p : Db.Post) ts, (Db.applyClicks ts p).clicks = p.clicks + ts.length) ∧
    (∀ (p : Db.Post) ts t₀, p.first_click = some t₀ →
      (Db.applyClicks ts p).first_click = some t₀) ∧
    (∀ (p : Db.Post) t ts, p.first_click = none →
      (Db.applyClicks (t :: ts) p).first_click = some t) ∧
    (∀ (p : Db.Post) ts t, (Db.applyClicks (ts ++ [t]) p).last_click = some t) ∧
    (∀ (p : Db.Post) t, p.first_click = none →
      (Db.applyClick t p).first_click = some t ∧ (Db.applyClick t p).last_click = some t) ∧
    (∀ (p : Db.Post) t t',
      (Db.applyClick t' (Db.applyClick t p)).first_click = (Db.applyClick t p).first_click ∧
      (Db.applyClick t' (Db.applyClick t p)).last_click = some t') ∧
    (∀ (p : Rw.Post) ts, (Rw.applyClicks ts p).clicks = p.clicks + ts.length) ∧
    (∀ (p : Rw.Post) ts t₀, p.first_click = some t₀ →
      (Rw.applyClicks ts p).first_click = some t₀) ∧
    (∀ (p : Rw.Post) t ts, p.first_click = none →
      (Rw.applyClicks (t :: ts) p).first_click = some t) ∧
    (∀ (p : Rw.Post) ts t, (Rw.applyClicks (ts ++ [t]) p).last_click = some t) ∧
    (∀ (p : Rw.Post) t, p.first_click = none →
      (Rw.applyClick t p).first_click = some t ∧ (Rw.applyClick t p).last_click = some t) ∧
    (∀ (p : Rw.Post) t t',
      (Rw.applyClick t' (Rw.applyClick t p)).first_click = (Rw.applyClick t p).first_click ∧
      (Rw.applyClick t' (Rw.applyClick t p)).last_click = some t') := by
  have dbpres : ∀ ts (p : Db.Post) t₀, p.first_click = some t₀ →
      (Db.applyClicks ts p).first_click = some t₀ := by
    intro ts
    induction ts with
    | nil => intro p t₀ h; exact h
    | cons t ts ih =>
      intro p t₀ h
      exact ih (Db.applyClick t p) t₀ (by simp [Db.applyClick, h])
  have rwpres : ∀ ts (p : Rw.Post) t₀, p.first_click = some t₀ →
      (Rw.applyClicks ts p).first_click = some t₀ := by
    intro ts
    induction ts with
    | nil => intro p t₀ h; exact h
    | cons t ts ih =>
      intro p t₀ h
      exact ih (Rw.applyClick t p) t₀ (by simp [Rw.applyClick, h])
  have dbclicks : ∀ ts (p : Db.Post), (Db.applyClicks ts p).clicks = p.clicks + ts.length := by
    intro ts
    induction ts with
    | nil => intro p; rfl
    | cons t ts ih =>
      intro p
      have := ih (Db.applyClick t p)
      simp only [Db.applyClicks] at this ⊢
      rw [List.foldl_cons, this]
      simp [Db.applyClick]
      omega
  have rwclicks : ∀ ts (p : Rw.Post), (Rw.applyClicks ts p).clicks = p.clicks + ts.length := by
    intro ts
    induction ts with
    | nil => intro p; rfl
    | cons t ts ih =>
      intro p
      have := ih (Rw.applyClick t p)
      simp only [Rw.applyClicks] at this ⊢
      rw [List.foldl_cons, this]
      simp [Rw.applyClick]
      omega
  refine ⟨fun p ts => dbclicks ts p, fun p ts t₀ h => dbpres ts p t₀ h, ?_, ?_, ?_, ?_,
          fun p ts => rwclicks ts p, fun p ts t₀ h => rwpres ts p t₀ h, ?_, ?_, ?_, ?_⟩
  · intro p t ts h
    exact dbpres ts (Db.applyClick t p) t (by simp [Db.applyClick, h])
  · intro p ts t
    simp only [Db.applyClicks, List.foldl_append]
    rfl
  · intro p t h
    exact ⟨by simp [Db.applyClick, h], rfl⟩
  · intro p t t'
    exact ⟨by simp [Db.applyClick], rfl⟩
  · intro p t ts h
    exact rwpres ts (Rw.applyClick t p) t (by simp [Rw.applyClick, h])
  · intro p ts t
    simp only [Rw.applyClicks, List.foldl_append]
    rfl
  · intro p t h
    exact ⟨by simp [Rw.applyClick, h], rfl⟩
  · intro p t t'
    constructor
    · cases h : p.first_click <;> simp [Rw.applyClick, h]
    · rfl

/-- Witness for C5: a post with no clicks receives accepted clicks at times 3
then 5; `first_click` becomes 3 and stays, `last_click` follows to 5. -/
theorem c5_click_counter_timestamps_witness :
    (Db.applyClicks ([3] ++ [5])
      { username := "alice", badge_type := "gold", platform := "facebook",
        post_url := some "https://x.com/p/1", clicks := 0, confirmed := true,
        first_click := none, last_click := none, created_at := 0,
        confirmed_at := some 1 }).first_click = some 3 ∧
    (Db.applyClicks ([3] ++ [5])
      { username := "alice", badge_type := "gold", platform := "facebook",
        post_url := some "https://x.com/p/1", clicks := 0, confirmed := true,
        first_click := none, last_click := none, created_at := 0,
        confirmed_at := some 1 }).last_click = some 5 :=
  ⟨c5_click_counter_timestamps.2.2.1 _ 3 [5] rfl,
   c5_click_counter_timestamps.2.2.2.1 _ [3] 5⟩

/-! ## Claim C6: the confirm operation -/

/-- Claim C6: `POST /api/confirm-post` fails with NotFound (404) exactly when
the tracking id is absent, leaving the store unchanged; on any existing post
— pending or already confirmed — it overwrites `post_url` and `platform` and
sets `confirmed = true` and `confirmed_at`, so re-confirming is
idempotent-by-overwrite. -/
theorem c6_confirm_post_spec :
    (∀ tid url pf un now (st : Db.State), List.lookup tid st.posts = none →
      Db.confirm_post tid url pf un now st = (ApiResult.err 404 "Tracking ID not found", st)) ∧
    (∀ tid url pf un now (st : Db.State) post, List.lookup tid st.posts = some post →
      (Db.confirm_post tid url pf un now st).1 = ApiResult.ok ∧
      List.lookup tid (Db.confirm_post tid url pf un now st).2.posts =
        some (Db.confirmUpdate url pf un now post)) ∧
    (∀ url pf un now (post : Db.Post),
      (Db.confirmUpdate url pf un now post).confirmed = true ∧
      (Db.confirmUpdate url pf un now post).post_url = some url ∧
      (Db.confirmUpdate url pf un now post).platform = pf ∧
      (Db.confirmUpdate url pf un now post).confirmed_at = some now) := by
  refine ⟨?_, ?_, ?_⟩
  · intro tid url pf un now st h
    simp [Db.confirm_post, h]
  · intro tid url pf un now st post h
    refine ⟨by simp [Db.confirm_post, h], ?_⟩
    simp [Db.confirm_post, h, lookup_postsUpdate]
  · intro url pf un now post
    unfold Db.confirmUpdate
    cases un with
    | none => exact ⟨rfl, rfl, rfl, rfl⟩
    | some u =>
      by_cases hu : u ≠ "" ∧ u ≠ "unknown" <;> simp [hu]

/-- Witness for C6: confirming an existing pending post succeeds and rewrites
it; confirming an unknown tracking id returns the 404 with the store
unchanged. -/
theorem c6_confirm_post_spec_witness :
    ((Db.confirm_post "t1" "https://x.com/p/1" "facebook" (some "alice") 9
        { posts := [("t1",
            { username := "unknown", badge_type := "gold", platform := "facebook",
              post_url := none, clicks := 0, confirmed := false, first_click := none,
              last_click := none, created_at := 0, confirmed_at := none })],
          history := [], bot_requests_blocked := 0, tracker := fun _ => none }).1
      = ApiResult.ok) ∧
    (Db.confirm_post "zz" "https://x.com/p/2" "x" none 9
        { posts := [], history := [], bot_requests_blocked := 0,
          tracker := fun _ => none }
      = (ApiResult.err 404 "Tracking ID not found",
         { posts := [], history := [], bot_requests_blocked := 0,
           tracker := fun _ => none })) :=
  ⟨(c6_confirm_post_spec.2.1 "t1" "https://x.com/p/1" "facebook" (some "alice") 9
      { posts := [("t1",
          { username := "unknown", badge_type := "gold", platform := "facebook",
            post_url := none, clicks := 0, confirmed := false, first_click := none,
            last_click := none, created_at := 0, confirmed_at := none })],
        history := [], bot_requests_blocked := 0, tracker := fun _ => none }
      { username := "unknown", badge_type := "gold", platform := "facebook",
        post_url := none, clicks := 0, confirmed := false, first_click := none,
        last_click := none, created_at := 0, confirmed_at := none }
      (by decide)).1,
   c6_confirm_post_spec.1 "zz" "https://x.com/p/2" "x" none 9
     { posts := [], history := [], bot_requests_blocked := 0,
       tracker := fun _ => none } rfl⟩

/-! ## Claim C10: the flat-file variant creates posts on the click path -/

theorem rtake_concat_getLast {α : Type} (n : Nat) (l : List α) (a : α)
    (h : l.length + 1 - n ≤ l.length) :
    (Rw.rtake n (l ++ [a])).getLast? = some a := by
  unfold Rw.rtake
  rw [List.length_append]
  simp only [List.length_singleton]
  rw [List.drop_append_of_le_length h]
  exact List.getLast?_concat _

/-- Claim C10: in the flat-file variant, a human, non-rate-limited click on a
tracking id with no stored post creates the post on the fly (platform and
badge from the query, username "unknown", empty post_url) and counts the
click immediately, leaving its counter at 1 and appending the history
record. -/
theorem c10_rw_click_creates_post :
    ∀ tid ua ip p b rl_now now save_fail (st : Rw.State),
      List.lookup tid st.posts = none →
      is_bot_request ua = false →
      (is_rate_limited ip tid rl_now (clean_ip_tracker rl_now st.tracker)).1 = false →
      List.lookup tid (Rw.track_click tid ua ip p b rl_now now save_fail st).2.posts =
        some { clicks := 1, platform := p, badge_type := b, username := "unknown",
               post_url := "", first_click := some now, last_click := some now,
               created_at := now } ∧
      (Rw.track_click tid ua ip p b rl_now now save_fail st).2.history.getLast? =
        some { tracking_id := tid, timestamp := now, platform := p, badge_type := b,
               ip := strTake 15 ip, user_agent := strTake 30 ua, is_human := true } ∧
      (Rw.track_click tid ua ip p b rl_now now save_fail st).2.total_clicks =
        st.total_clicks + 1 := by
  intro tid ua ip p b rl_now now save_fail st hnone hb hrl
  unfold Rw.track_click
  dsimp only
  simp only [hb, Bool.false_eq_true, if_false, hrl, hnone, if_pos, if_true]
  refine ⟨?_, ?_, by trivial⟩
  · rw [lookup_postsUpdate, lookup_append_right tid st.posts _ hnone]
    simp [List.lookup_cons, Rw.applyClick, Rw.newPost]
  · by_cases hlen : (st.history ++
      [({ tracking_id := tid, timestamp := now, platform := p, badge_type := b,
          ip := strTake 15 ip, user_agent := strTake 30 ua,
          is_human := true } : ClickRecord)]).length > 50
    · rw [if_pos hlen]
      refine rtake_concat_getLast 50 _ _ ?_
      rw [List.length_append, List.length_singleton] at hlen
      omega
    · rw [if_neg hlen]
      exact List.getLast?_concat _

/-- Witness for C10: a human click on an unknown tracking id in the empty
flat-file state creates the post with one click. -/
theorem c10_rw_click_creates_post_witness :
    List.lookup "abc12345"
      (Rw.track_click "abc12345" "Mozilla/5.0 Chrome/120.0" "1.2.3.4" "fac" "g"
        0 7 false Rw.emptyState).2.posts =
      some { clicks := 1, platform := "fac", badge_type := "g",
             username := "unknown", post_url := "", first_click := some 7,
             last_click := some 7, created_at := 7 } :=
  (c10_rw_click_creates_post "abc12345" "Mozilla/5.0 Chrome/120.0" "1.2.3.4"
    "fac" "g" 0 7 false Rw.emptyState rfl (by decide) (by decide)).1

/-! ## Claim C1: the confirmation gate on the click path -/

/-- Counterexample to C1 as stated: in the flat-file variant a human,
non-rate-limited click on a tracking id with **no stored post** (hence never
confirmed — this variant has no confirm operation at all) appends a history
record and leaves a counter at 1. -/
theorem c1_unconfirmed_click_counterexample :
    List.lookup "abc12345" (Rw.emptyState).posts = none ∧
    (Rw.track_click "abc12345" "Mozilla/5.0 Chrome/120.0" "1.2.3.4" "fac" "g"
      0 7 false Rw.emptyState).2.history.length = 1 ∧
    (List.lookup "abc12345"
      (Rw.track_click "abc12345" "Mozilla/5.0 Chrome/120.0" "1.2.3.4" "fac" "g"
        0 7 false Rw.emptyState).2.posts).map (fun q => q.clicks) = some 1 :=
  ⟨rfl, by decide, by decide⟩

/-- Claim C1 (amended): in the PostgreSQL variant a click for a missing or
unconfirmed tracking id leaves the posts table and the click history
unchanged on every path, so only posts with `confirmed = true` can be
counted.  The flat-file variant has no confirmation gate: every human,
non-rate-limited click increments the (possibly freshly created) post's
counter and appends a history record. -/
theorem c1_click_confirmation_gate :
    (∀ tid ua ip p b rl_now now db_fail (st : Db.State),
      (List.lookup tid st.posts = none ∨
       ∃ post, List.lookup tid st.posts = some post ∧ post.confirmed = false) →
      (Db.track_click tid ua ip p b rl_now now db_fail st).2.posts = st.posts ∧
      (Db.track_click tid ua ip p b rl_now now db_fail st).2.history = st.history) ∧
    (∀ tid ua ip p b rl_now now save_fail (st : Rw.State),
      is_bot_request ua = false →
      (is_rate_limited ip tid rl_now (clean_ip_tracker rl_now st.tracker)).1 = false →
      List.lookup tid (Rw.track_click tid ua ip p b rl_now now save_fail st).2.posts =
        some (Rw.applyClick now ((List.lookup tid st.posts).getD (Rw.newPost p b now))) ∧
      (Rw.track_click tid ua ip p b rl_now now save_fail st).2.history.getLast? =
        some { tracking_id := tid, timestamp := now, platform := p, badge_type := b,
               ip := strTake 15 ip, user_agent := strTake 30 ua, is_human := true }) := by
  constructor
  · intro tid ua ip p b rl_now now db_fail st h
    unfold Db.track_click
    dsimp only
    rcases h with hnone | ⟨q, hq, hqc⟩
    · simp only [hnone]
      repeat' split
      all_goals exact ⟨rfl, rfl⟩
    · simp only [hq, hqc, Bool.false_eq_true, if_false]
      repeat' split
      all_goals exact ⟨rfl, rfl⟩
  · intro tid ua ip p b rl_now now save_fail st hb hrl
    unfold Rw.track_click
    dsimp only
    simp only [hb, Bool.false_eq_true, if_false, hrl]
    constructor
    · cases hl : List.lookup tid st.posts with
      | none =>
        rw [if_pos rfl, lookup_postsUpdate, lookup_append_right tid st.posts _ hl]
        simp [List.lookup_cons]
      | some q =>
        rw [if_neg (by simp), lookup_postsUpdate, hl]
        simp
    · by_cases hlen : (st.history ++
        [({ tracking_id := tid, timestamp := now, platform := p, badge_type := b,
            ip := strTake 15 ip, user_agent := strTake 30 ua,
            is_human := true } : ClickRecord)]).length > 50
      · rw [if_pos hlen]
        refine rtake_concat_getLast 50 _ _ ?_
        rw [List.length_append, List.length_singleton] at hlen
        omega
      · rw [if_neg hlen]
        exact List.getLast?_concat _

/-- Witness for the amended C1: a click on a pending (unconfirmed) post in the
PostgreSQL variant changes neither the posts table nor the history; the same
click in the flat-file variant is counted. -/
theorem c1_click_confirmation_gate_witness :
    ((Db.track_click "t1" "Mozilla/5.0 Chrome/120.0" "1.2.3.4" "fac" "g" 0 7 false
        { posts := [("t1",
            { username := "unknown", badge_type := "gold", platform := "facebook",
              post_url := none, clicks := 0, confirmed := false, first_click := none,
              last_click := none, created_at := 0, confirmed_at := none })],
          history := [], bot_requests_blocked := 0, tracker := fun _ => none }).2.posts =
      [("t1",
        { username := "unknown", badge_type := "gold", platform := "facebook",
          post_url := none, clicks := 0, confirmed := false, first_click := none,
          last_click := none, created_at := 0, confirmed_at := none })]) ∧
    (Rw.track_click "t1" "Mozilla/5.0 Chrome/120.0" "1.2.3.4" "fac" "g" 0 7 false
        Rw.emptyState).2.history.getLast? =
      some { tracking_id := "t1", timestamp := 7, platform := "fac", badge_type := "g",
             ip := strTake 15 "1.2.3.4", user_agent := strTake 30 "Mozilla/5.0 Chrome/120.0",
             is_human := true } :=
  ⟨(c1_click_confirmation_gate.1 "t1" "Mozilla/5.0 Chrome/120.0" "1.2.3.4" "fac" "g"
      0 7 false
      { posts := [("t1",
          { username := "unknown", badge_type := "gold", platform := "facebook",
            post_url := none, clicks := 0, confirmed := false, first_click := none,
            last_click := none, created_at := 0, confirmed_at := none })],
        history := [], bot_requests_blocked := 0, tracker := fun _ => none }
      (Or.inr ⟨{ username := "unknown", badge_type := "gold", platform := "facebook",
                 post_url := none, clicks := 0, confirmed := false, first_click := none,
                 last_click := none, created_at := 0, confirmed_at := none },
               by decide, rfl⟩)).1,
   (c1_click_confirmation_gate.2 "t1" "Mozilla/5.0 Chrome/120.0" "1.2.3.4" "fac" "g"
      0 7 false Rw.emptyState (by decide) (by decide)).2⟩

/-! ## Claim C7: analytics aggregation -/

/-- Counterexample to C7 as stated: in the flat-file variant the analytics
totals include a post that was never confirmed (it was created by the click
endpoint, keeps the initial empty `post_url`, and this variant has no confirm
operation), so the aggregation is not restricted to confirmed posts in both
variants. -/
theorem c7_analytics_counterexample :
    (Rw.get_analytics (Rw.track_click "abc12345" "Mozilla/5.0 Chrome/120.0"
      "1.2.3.4" "fac" "g" 0 7 false Rw.emptyState).2).total_clicks = 1 ∧
    (List.lookup "abc12345" (Rw.track_click "abc12345" "Mozilla/5.0 Chrome/120.0"
      "1.2.3.4" "fac" "g" 0 7 false Rw.emptyState).2.posts).map
        (fun q => q.post_url) = some "" :=
  ⟨by decide, by decide⟩

/-- Claim C7 (amended): in the PostgreSQL variant every analytics aggregate
(total clicks, total post count, per-platform sums, per-badge sums, top
posts) ranges over confirmed posts only — an unconfirmed post changes none of
them and only bumps the pending count — and the average equals
`total_clicks / max(total_posts, 1)`.  The flat-file variant has no
confirmation state: its analytics aggregates over **all** stored posts, with
the same 0-safe average formula. -/
theorem c7_analytics_aggregation :
    (∀ (st : Db.State) tid post, post.confirmed = false →
      (Db.get_analytics { st with posts := (tid, post) :: st.posts }).total_clicks =
        (Db.get_analytics st).total_clicks ∧
      (Db.get_analytics { st with posts := (tid, post) :: st.posts }).total_posts =
        (Db.get_analytics st).total_posts ∧
      (Db.get_analytics { st with posts := (tid, post) :: st.posts }).clicks_by_platform =
        (Db.get_analytics st).clicks_by_platform ∧
      (Db.get_analytics { st with posts := (tid, post) :: st.posts }).clicks_by_badge_type =
        (Db.get_analytics st).clicks_by_badge_type ∧
      (Db.get_analytics { st with posts := (tid, post) :: st.posts }).top_posts =
        (Db.get_analytics st).top_posts ∧
      (Db.get_analytics { st with posts := (tid, post) :: st.posts }).pending_posts =
        (Db.get_analytics st).pending_posts + 1) ∧
    (∀ (st : Db.State) kv, kv ∈ (Db.get_analytics st).top_posts →
      kv.2.confirmed = true) ∧
    (∀ st : Db.State, (Db.get_analytics st).avg_clicks_per_post =
      ((Db.get_analytics st).total_clicks : ℚ) /
        ((max (Db.get_analytics st).total_posts 1 : Nat) : ℚ)) ∧
    (∀ st : Rw.State,
      (Rw.get_analytics st).total_clicks = Rw.sumClicks st.posts ∧
      (Rw.get_analytics st).total_posts = st.posts.length ∧
      (Rw.get_analytics st).avg_clicks_per_post =
        ((Rw.get_analytics st).total_clicks : ℚ) /
          ((max (Rw.get_analytics st).total_posts 1 : Nat) : ℚ)) := by
  refine ⟨?_, ?_, ?_, ?_⟩
  · intro st tid post h
    have hconf : Db.confirmedPosts { st with posts := (tid, post) :: st.posts } =
        Db.confirmedPosts st := by
      simp [Db.confirmedPosts, h]
    refine ⟨?_, ?_, ?_, ?_, ?_, ?_⟩ <;>
      simp [Db.get_analytics, hconf, h]
  · intro st kv hkv
    dsimp only [Db.get_analytics] at hkv
    have h1 : kv ∈ List.insertionSort
        (fun a b : String × Db.Post => b.2.clicks ≤ a.2.clicks)
        (Db.confirmedPosts st) := List.take_subset _ _ hkv
    have h2 : kv ∈ Db.confirmedPosts st := (List.mem_insertionSort _).1 h1
    unfold Db.confirmedPosts at h2
    have h3 := List.of_mem_filter h2
    exact h3
  · intro st
    dsimp only [Db.get_analytics]
    congr 1
    by_cases h : (Db.confirmedPosts st).length = 0 <;> simp [h]
  · intro st
    have hperm := List.perm_insertionSort
      (fun a b : String × Rw.Post => b.2.clicks ≤ a.2.clicks) st.posts
    have hsum : Rw.sumClicks (List.insertionSort
        (fun a b : String × Rw.Post => b.2.clicks ≤ a.2.clicks) st.posts) =
        Rw.sumClicks st.posts := by
      unfold Rw.sumClicks
      exact (hperm.map (fun kv => kv.2.clicks)).sum_eq
    exact ⟨hsum, hperm.length_eq, rfl⟩

/-- Witness for the amended C7: adding a pending post to the empty PostgreSQL
state leaves total clicks at 0 and moves the pending count to 1. -/
theorem c7_analytics_aggregation_witness :
    (Db.get_analytics { Db.emptyState with posts := [("t1",
        { username := "unknown", badge_type := "gold", platform := "facebook",
          post_url := none, clicks := 3, confirmed := false, first_click := none,
          last_click := none, created_at := 0, confirmed_at := none })] }).total_clicks =
      (Db.get_analytics Db.emptyState).total_clicks ∧
    (Db.get_analytics { Db.emptyState with posts := [("t1",
        { username := "unknown", badge_type := "gold", platform := "facebook",
          post_url := none, clicks := 3, confirmed := false, first_click := none,
          last_click := none, created_at := 0, confirmed_at := none })] }).pending_posts =
      (Db.get_analytics Db.emptyState).pending_posts + 1 :=
  have h := c7_analytics_aggregation.1 Db.emptyState "t1"
    { username := "unknown", badge_type := "gold", platform := "facebook",
      post_url := none, clicks := 3, confirmed := false, first_click := none,
      last_click := none, created_at := 0, confirmed_at := none } rfl
  ⟨h.1, h.2.2.2.2.2⟩

/-! ## Claim C8: the recent-clicks projection -/

theorem humanJoined_length_of_fk (posts : List (String × Db.Post))
    (hist : List ClickRecord)
    (hfk : ∀ r ∈ hist, r.is_human = true →
      (List.lookup r.tracking_id posts).isSome = true) :
    (hist.filterMap (Db.joinRecord posts)).length =
      hist.countP (fun r => r.is_human) := by
  induction hist with
  | nil => rfl
  | cons r rest ih =>
    have hrest := fun q hq hh => hfk q (List.mem_cons_of_mem _ hq) hh
    rw [List.filterMap_cons, List.countP_cons]
    cases hh : r.is_human with
    | false => simp [Db.joinRecord, hh, ih hrest]
    | true =>
      have hsome := hfk r (List.mem_cons_self r rest) hh
      cases hl : List.lookup r.tracking_id posts with
      | none =>
        rw [hl] at hsome
        cases hsome
      | some p => simp [Db.joinRecord, hh, hl, ih hrest]

/-- Counterexample to C8 as stated: in the flat-file variant two human
records with timestamps 1 and 2 come back in chronological order `[1, 2]`,
which is not sorted newest-first. -/
theorem c8_recent_clicks_counterexample :
    (Rw.recent_clicks
      [{ tracking_id := "t1", timestamp := 1, platform := "fac", badge_type := "g",
         ip := "1.2.3.4", user_agent := "m", is_human := true },
       { tracking_id := "t1", timestamp := 2, platform := "fac", badge_type := "g",
         ip := "1.2.3.4", user_agent := "m", is_human := true }]).map
      (fun c => c.timestamp) = [1, 2] ∧
    ¬ List.Sorted (fun a b : Nat => b ≤ a)
      ((Rw.recent_clicks
        [{ tracking_id := "t1", timestamp := 1, platform := "fac", badge_type := "g",
           ip := "1.2.3.4", user_agent := "m", is_human := true },
         { tracking_id := "t1", timestamp := 2, platform := "fac", badge_type := "g",
           ip := "1.2.3.4", user_agent := "m", is_human := true }]).map
        (fun c => c.timestamp)) :=
  ⟨by decide, by decide⟩

/-- Claim C8 (amended): in the PostgreSQL variant `recent_clicks` is the 20
most recent human click-history records sorted newest-first (assuming the
foreign-key invariant that every human record's post exists).  In the
flat-file variant it is the human records among the **last 20 stored
records**, returned in chronological (oldest-first) order. -/
theorem c8_recent_clicks_spec :
    (∀ st : Db.State,
      (∀ r ∈ st.history, r.is_human = true →
        (List.lookup r.tracking_id st.posts).isSome = true) →
      List.Sorted (fun a b : Db.RecentClick => b.timestamp ≤ a.timestamp)
        (Db.recent_clicks st) ∧
      (Db.recent_clicks st).length =
        min 20 (st.history.countP (fun r => r.is_human)) ∧
      (∀ y ∈ Db.recent_clicks st, y ∈ Db.humanJoined st) ∧
      (∀ x ∈ Db.humanJoined st, x ∉ Db.recent_clicks st →
        ∀ y ∈ Db.recent_clicks st, x.timestamp ≤ y.timestamp)) ∧
    (∀ h : List ClickRecord,
      List.Sorted (fun a b : ClickRecord => a.timestamp ≤ b.timestamp) h →
      List.Sorted (fun a b : Rw.RecentClick => a.timestamp ≤ b.timestamp)
        (Rw.recent_clicks h)) ∧
    (∀ h : List ClickRecord,
      (Rw.recent_clicks h).length =
        (Rw.rtake 20 h).countP (fun r => r.is_human)) := by
  have inst_total : IsTotal Db.RecentClick
      (fun a b => b.timestamp ≤ a.timestamp) :=
    ⟨fun a b => le_total b.timestamp a.timestamp⟩
  have inst_trans : IsTrans Db.RecentClick
      (fun a b => b.timestamp ≤ a.timestamp) :=
    ⟨fun a b c hab hbc => le_trans hbc hab⟩
  have hsorted : ∀ st : Db.State,
      List.Pairwise (fun a b : Db.RecentClick => b.timestamp ≤ a.timestamp)
        (List.insertionSort (fun a b : Db.RecentClick => b.timestamp ≤ a.timestamp)
          (Db.humanJoined st)) := fun st =>
    @List.sorted_insertionSort Db.RecentClick
      (fun a b => b.timestamp ≤ a.timestamp) _ inst_total inst_trans
      (Db.humanJoined st)
  refine ⟨?_, ?_, ?_⟩
  · intro st hfk
    refine ⟨?_, ?_, ?_, ?_⟩
    · exact List.Pairwise.sublist (List.take_sublist _ _) (hsorted st)
    · unfold Db.recent_clicks
      rw [List.length_take, (List.perm_insertionSort _ _).length_eq]
      unfold Db.humanJoined
      rw [humanJoined_length_of_fk st.posts st.history hfk]
    · intro y hy
      exact (List.mem_insertionSort _).1 (List.take_subset _ _ hy)
    · intro x hx hnot y hy
      unfold Db.recent_clicks at hnot hy
      have hxS : x ∈ List.insertionSort
          (fun a b : Db.RecentClick => b.timestamp ≤ a.timestamp)
          (Db.humanJoined st) := (List.mem_insertionSort _).2 hx
      have hsplit := List.take_append_drop 20 (List.insertionSort
        (fun a b : Db.RecentClick => b.timestamp ≤ a.timestamp)
        (Db.humanJoined st))
      have hxdrop : x ∈ List.drop 20 (List.insertionSort
          (fun a b : Db.RecentClick => b.timestamp ≤ a.timestamp)
          (Db.humanJoined st)) := by
        rcases List.mem_append.1 (by rw [hsplit]; exact hxS) with hcase | hcase
        · exact absurd hcase hnot
        · exact hcase
      have hpw : List.Pairwise (fun a b : Db.RecentClick => b.timestamp ≤ a.timestamp)
          (List.take 20 (List.insertionSort
            (fun a b : Db.RecentClick => b.timestamp ≤ a.timestamp)
            (Db.humanJoined st)) ++
           List.drop 20 (List.insertionSort
            (fun a b : Db.RecentClick => b.timestamp ≤ a.timestamp)
            (Db.humanJoined st))) := by
        rw [hsplit]
        exact hsorted st
      exact (List.pairwise_append.1 hpw).2.2 y hy x hxdrop
  · intro h hsort
    unfold Rw.recent_clicks
    exact List.Pairwise.map _ (fun a b hab => hab)
      (List.Pairwise.filter _ (List.Pairwise.drop hsort))
  · intro h
    unfold Rw.recent_clicks
    rw [List.length_map]
    exact (List.countP_eq_length_filter _ _).symm

/-- Witness for the amended C8: a concrete PostgreSQL state with three human
records comes back newest-first; a chronologically stored flat-file history
stays oldest-first. -/
theorem c8_recent_clicks_spec_witness :
    List.Sorted (fun a b : Db.RecentClick => b.timestamp ≤ a.timestamp)
      (Db.recent_clicks
        { posts := [("t1",
            { username := "alice", badge_type := "gold", platform := "facebook",
              post_url := some "https://x.com/p/1", clicks := 3, confirmed := true,
              first_click := some 1, last_click := some 5, created_at := 0,
              confirmed_at := some 1 })],
          history :=
            [{ tracking_id := "t1", timestamp := 1, platform := "fac", badge_type := "g",
               ip := "1.2.3.4", user_agent := "m", is_human := true },
             { tracking_id := "t1", timestamp := 5, platform := "fac", badge_type := "g",
               ip := "1.2.3.4", user_agent := "m", is_human := true },
             { tracking_id := "t1", timestamp := 3, platform := "fac", badge_type := "g",
               ip := "1.2.3.4", user_agent := "m", is_human := true }],
          bot_requests_blocked := 0, tracker := fun _ => none }) ∧
    List.Sorted (fun a b : Rw.RecentClick => a.timestamp ≤ b.timestamp)
      (Rw.recent_clicks
        [{ tracking_id := "t1", timestamp := 1, platform := "fac", badge_type := "g",
           ip := "1.2.3.4", user_agent := "m", is_human := true },
         { tracking_id := "t1", timestamp := 5, platform := "fac", badge_type := "g",
           ip := "1.2.3.4", user_agent := "m", is_human := true }]) :=
  ⟨(c8_recent_clicks_spec.1
      { posts := [("t1",
          { username := "alice", badge_type := "gold", platform := "facebook",
            post_url := some "https://x.com/p/1", clicks := 3, confirmed := true,
            first_click := some 1, last_click := some 5, created_at := 0,
            confirmed_at := some 1 })],
        history :=
          [{ tracking_id := "t1", timestamp := 1, platform := "fac", badge_type := "g",
             ip := "1.2.3.4", user_agent := "m", is_human := true },
           { tracking_id := "t1", timestamp := 5, platform := "fac", badge_type := "g",
             ip := "1.2.3.4", user_agent := "m", is_human := true },
           { tracking_id := "t1", timestamp := 3, platform := "fac", badge_type := "g",
             ip := "1.2.3.4", user_agent := "m", is_human := true }],
        bot_requests_blocked := 0, tracker := fun _ => none }
      (by decide)).1,
   c8_recent_clicks_spec.2.1
     [{ tracking_id := "t1", timestamp := 1, platform := "fac", badge_type := "g",
        ip := "1.2.3.4", user_agent := "m", is_human := true },
      { tracking_id := "t1", timestamp := 5, platform := "fac", badge_type := "g",
        ip := "1.2.3.4", user_agent := "m", is_human := true }]
     (by decide)⟩

end ClickTracking
